import Mathlib

/-!
Shallow embedding of the Connection-monitor repository
(SokhengDin/Connection-monitor): the client registry, the liveness sweep,
the Redis relay publish operations, the alert suppression map, JSON
(de)serialization of the wire payloads, and the agent-side reconnection
backoff logic, together with proofs of the behavioural properties stated
about them.

Each definition carries a doc comment naming the source file and lines it
embeds.  Timestamps are modelled as `Nat` milliseconds (JavaScript
`Date.now()`); JavaScript `a - b` guarded by `>`/`<` comparisons against a
positive threshold agrees with truncated `Nat` subtraction in every branch
used here, because a negative JS difference and a truncated-to-zero `Nat`
difference fall on the same side of each comparison.
-/

namespace ConnMonitor

/-- Model of a JSON value, the payload type of the Redis relay channels.
`JSON.stringify` of a JS object omits keys whose value is `undefined`;
the encoders below therefore omit absent optional fields. -/
inductive Json where
  | null : Json
  | bool (b : Bool) : Json
  | num (n : Int) : Json
  | str (s : String) : Json
  | arr (elems : List Json) : Json
  | obj (fields : List (String × Json)) : Json

/-- Association-list read, used both for JSON object member access and for
the JS `Map.get` of the registry and suppression maps. -/
def mapGet {α : Type} : List (String × α) → String → Option α
  | [], _ => none
  | p :: t, k => if p.1 == k then some p.2 else mapGet t k

/-- JS `Map.set`: replace in place when the key exists, append otherwise. -/
def mapSet {α : Type} : List (String × α) → String → α → List (String × α)
  | [], k, v => [(k, v)]
  | p :: t, k, v => if p.1 == k then (k, v) :: t else p :: mapSet t k v

/-- JSON object member access (`data.field` on the subscriber side). -/
def Json.lookup : Json → String → Option Json
  | .obj fs, k => mapGet fs k
  | _, _ => none

def Json.asStr : Json → Option String
  | .str s => some s
  | _ => none

def Json.asNat : Json → Option Nat
  | .num (Int.ofNat n) => some n
  | _ => none

def Json.asInt : Json → Option Int
  | .num n => some n
  | _ => none

/-- Emit one JSON object member for an optional field: absent field, no key. -/
def optField (k : String) : Option Json → List (String × Json)
  | none => []
  | some v => [(k, v)]

/-- The `status` enum of a registry entry (`'online' | 'offline'`,
src/src/services/publisher.service.ts line 13). -/
inductive ClientStatus where
  | online : ClientStatus
  | offline : ClientStatus
deriving DecidableEq, Repr

/-- The `ConnectionStatus.status` wire enum (`'online' | 'offline' | 'idle'`,
src/src/types/connection.type.ts line 13). -/
inductive WireStatus where
  | online : WireStatus
  | offline : WireStatus
  | idle : WireStatus
deriving DecidableEq, Repr

/-- Alert severity (`'info' | 'warning' | 'error'`,
src/src/types/connection.type.ts line 45). -/
inductive Severity where
  | info : Severity
  | warning : Severity
  | error : Severity
deriving DecidableEq, Repr

/-- The `ConnectionStatus.metadata`: `Partial<ClientMetadata> & { reason?,
lastHeartbeat? }` (src/src/types/connection.type.ts lines 15-18).  Every
field is optional; absence is semantically distinct from any present value. -/
structure StatusMeta where
  projectName : Option String
  location : Option String
  installedDate : Option String
  owner : Option String
  hostname : Option String
  ip : Option String
  version : Option String
  reason : Option String
  lastHeartbeat : Option Nat
deriving DecidableEq, Repr

/-- The `ConnectionStatus` (src/src/types/connection.type.ts lines 11-19), the
StatusEvent published on the connection-status channel. -/
structure ConnectionStatus where
  clientId : String
  status : WireStatus
  timestamp : Nat
  metadata : Option StatusMeta
deriving DecidableEq, Repr

/-- The `SystemMetrics` (src/src/types/connection.type.ts lines 21-29); numeric
samples modelled as integers. -/
structure SystemMetrics where
  clientId : Option String
  cpuUsage : Int
  memoryUsage : Int
  totalMemory : Int
  freeMemory : Int
  uptime : Int
  timestamp : Nat
deriving DecidableEq, Repr

/-- The `AlertMetadata` (src/src/types/connection.type.ts lines 31-40);
`additionalInfo : Record<string, any>` is carried as raw JSON. -/
structure AlertMetadata where
  projectName : String
  location : String
  component : Option String
  hostname : Option String
  ip : Option String
  version : Option String
  clientId : Option String
  additionalInfo : Option Json

/-- The `Alert` (src/src/types/connection.type.ts lines 42-48); `timestamp` is
optional. -/
structure Alert where
  type : String
  message : String
  severity : Severity
  timestamp : Option Nat
  metadata : AlertMetadata

def encodeWireStatus : WireStatus → Json
  | .online => .str "online"
  | .offline => .str "offline"
  | .idle => .str "idle"

def decodeWireStatus : Json → Option WireStatus
  | .str "online" => some .online
  | .str "offline" => some .offline
  | .str "idle" => some .idle
  | _ => none

def encodeSeverity : Severity → Json
  | .info => .str "info"
  | .warning => .str "warning"
  | .error => .str "error"

def decodeSeverity : Json → Option Severity
  | .str "info" => some .info
  | .str "warning" => some .warning
  | .str "error" => some .error
  | _ => none

/-- The `JSON.stringify` of a `ConnectionStatus.metadata` object: optional
fields that are `undefined` produce no key. -/
def encodeStatusMeta (m : StatusMeta) : Json :=
  .obj (optField "projectName" (m.projectName.map .str)
    ++ optField "location" (m.location.map .str)
    ++ optField "installedDate" (m.installedDate.map .str)
    ++ optField "owner" (m.owner.map .str)
    ++ optField "hostname" (m.hostname.map .str)
    ++ optField "ip" (m.ip.map .str)
    ++ optField "version" (m.version.map .str)
    ++ optField "reason" (m.reason.map .str)
    ++ optField "lastHeartbeat" (m.lastHeartbeat.map (fun n => .num n)))

/-- Read back one optional string member: a missing key is `undefined`,
i.e. the field is absent. -/
def optStrField (j : Json) (k : String) : Option (Option String) :=
  match j.lookup k with
  | none => some none
  | some v => v.asStr.map some

def optNatField (j : Json) (k : String) : Option (Option Nat) :=
  match j.lookup k with
  | none => some none
  | some v => v.asNat.map some

/-- The `JSON.parse` followed by the subscriber-side typed reads of a
`ConnectionStatus.metadata` object. -/
def decodeStatusMeta (j : Json) : Option StatusMeta := do
  let pn ← optStrField j "projectName"
  let loc ← optStrField j "location"
  let inst ← optStrField j "installedDate"
  let ow ← optStrField j "owner"
  let host ← optStrField j "hostname"
  let ip ← optStrField j "ip"
  let ver ← optStrField j "version"
  let reason ← optStrField j "reason"
  let lh ← optNatField j "lastHeartbeat"
  pure ⟨pn, loc, inst, ow, host, ip, ver, reason, lh⟩

/-- The `JSON.stringify(status)` as published on the connection-status channel
(src/src/services/publisher.service.ts lines 515-518). -/
def encodeStatus (s : ConnectionStatus) : Json :=
  .obj ([("clientId", .str s.clientId),
         ("status", encodeWireStatus s.status),
         ("timestamp", .num s.timestamp)]
    ++ optField "metadata" (s.metadata.map encodeStatusMeta))

/-- The `JSON.parse(message)` plus the typed reads of a StatusEvent on the
subscriber side (src/src/services/publisher.service.ts lines 57-62). -/
def decodeStatus (j : Json) : Option ConnectionStatus := do
  let cid ← (j.lookup "clientId").bind Json.asStr
  let st ← (j.lookup "status").bind decodeWireStatus
  let ts ← (j.lookup "timestamp").bind Json.asNat
  match j.lookup "metadata" with
  | none => pure ⟨cid, st, ts, none⟩
  | some mj => do
      let m ← decodeStatusMeta mj
      pure ⟨cid, st, ts, some m⟩

/-- The `JSON.stringify(metrics)` as published on the system-metrics channel. -/
def encodeMetrics (m : SystemMetrics) : Json :=
  .obj (optField "clientId" (m.clientId.map .str)
    ++ [("cpuUsage", .num m.cpuUsage),
        ("memoryUsage", .num m.memoryUsage),
        ("totalMemory", .num m.totalMemory),
        ("freeMemory", .num m.freeMemory),
        ("uptime", .num m.uptime),
        ("timestamp", .num m.timestamp)])

/-- The `JSON.stringify` of an `Alert.metadata` object. -/
def encodeAlertMeta (m : AlertMetadata) : Json :=
  .obj ([("projectName", .str m.projectName),
         ("location", .str m.location)]
    ++ optField "component" (m.component.map .str)
    ++ optField "hostname" (m.hostname.map .str)
    ++ optField "ip" (m.ip.map .str)
    ++ optField "version" (m.version.map .str)
    ++ optField "clientId" (m.clientId.map .str)
    ++ optField "additionalInfo" m.additionalInfo)

def decodeAlertMeta (j : Json) : Option AlertMetadata := do
  let pn ← (j.lookup "projectName").bind Json.asStr
  let loc ← (j.lookup "location").bind Json.asStr
  let comp ← optStrField j "component"
  let host ← optStrField j "hostname"
  let ip ← optStrField j "ip"
  let ver ← optStrField j "version"
  let cid ← optStrField j "clientId"
  pure ⟨pn, loc, comp, host, ip, ver, cid, j.lookup "additionalInfo"⟩

/-- The `JSON.stringify` of an Alert as published on the alerts channel. -/
def encodeAlert (a : Alert) : Json :=
  .obj ([("type", .str a.type),
         ("message", .str a.message),
         ("severity", encodeSeverity a.severity)]
    ++ optField "timestamp" (a.timestamp.map (fun n => .num n))
    ++ [("metadata", encodeAlertMeta a.metadata)])

def decodeAlert (j : Json) : Option Alert := do
  let ty ← (j.lookup "type").bind Json.asStr
  let msg ← (j.lookup "message").bind Json.asStr
  let sev ← (j.lookup "severity").bind decodeSeverity
  let ts ← optNatField j "timestamp"
  let md ← (j.lookup "metadata").bind decodeAlertMeta
  pure ⟨ty, msg, sev, ts, md⟩

/-- The payload substitution performed by `publishAlert` before serializing
(src/src/services/publisher.service.ts lines 551-554):
`{ ...alert, timestamp: alert.timestamp || Date.now() }`.  JavaScript `||`
treats both `undefined` and `0` as falsy, so an absent or zero timestamp is
replaced by the current time. -/
def publishAlertPayload (now : Nat) (a : Alert) : Alert :=
  { a with
    timestamp := some (match a.timestamp with
      | none => now
      | some t => if t = 0 then now else t) }

/-- Channel names (src/src/constants/channels.ts). -/
def CHANNELS_CONNECTION_STATUS : String := "connection:status"

def CHANNELS_SYSTEM_METRICS : String := "system:metrics"

def CHANNELS_ALERTS : String := "system:alerts"

@[simp] theorem mapGet_nil {α : Type} (k : String) :
    mapGet ([] : List (String × α)) k = none := rfl

@[simp] theorem mapGet_cons {α : Type} (p : String × α) (t : List (String × α))
    (k : String) :
    mapGet (p :: t) k = if p.1 == k then some p.2 else mapGet t k := rfl

theorem mapGet_optField_skip {k' k : String} (v : Option Json)
    (rest : List (String × Json)) (h : (k' == k) = false) :
    mapGet (optField k' v ++ rest) k = mapGet rest k := by
  cases v <;> simp [optField, mapGet, h]

theorem mapGet_optField_hit (k : String) (v : Option Json)
    (rest : List (String × Json)) (h : mapGet rest k = none) :
    mapGet (optField k v ++ rest) k = v := by
  cases v <;> simp [optField, mapGet, h]

theorem mapGet_optField_only_hit (k : String) (v : Option Json) :
    mapGet (optField k v) k = v := by
  cases v <;> simp [optField, mapGet]

theorem mapGet_optField_only_ne {k' k : String} (v : Option Json)
    (h : (k' == k) = false) :
    mapGet (optField k' v) k = none := by
  cases v <;> simp [optField, mapGet, h]

theorem optStrField_map_str (j : Json) (k : String) (o : Option String)
    (h : j.lookup k = o.map Json.str) : optStrField j k = some o := by
  cases o <;> simp [optStrField, h, Json.asStr]

theorem optNatField_map_num (j : Json) (k : String) (o : Option Nat)
    (h : j.lookup k = o.map (fun n : Nat => Json.num n)) :
    optNatField j k = some o := by
  cases o <;> simp [optNatField, h, Json.asNat]

/-- The `JSON.parse (JSON.stringify m)` recovers a status-metadata object
field-for-field, absent fields staying absent. -/
theorem decodeStatusMeta_encode (m : StatusMeta) :
    decodeStatusMeta (encodeStatusMeta m) = some m := by
  have hpn := optStrField_map_str (encodeStatusMeta m) "projectName" m.projectName
    (by simp +decide [encodeStatusMeta, Json.lookup, List.append_assoc,
      mapGet_optField_skip, mapGet_optField_hit, mapGet_optField_only_hit,
      mapGet_optField_only_ne])
  have hloc := optStrField_map_str (encodeStatusMeta m) "location" m.location
    (by simp +decide [encodeStatusMeta, Json.lookup, List.append_assoc,
      mapGet_optField_skip, mapGet_optField_hit, mapGet_optField_only_hit,
      mapGet_optField_only_ne])
  have hinst := optStrField_map_str (encodeStatusMeta m) "installedDate" m.installedDate
    (by simp +decide [encodeStatusMeta, Json.lookup, List.append_assoc,
      mapGet_optField_skip, mapGet_optField_hit, mapGet_optField_only_hit,
      mapGet_optField_only_ne])
  have how := optStrField_map_str (encodeStatusMeta m) "owner" m.owner
    (by simp +decide [encodeStatusMeta, Json.lookup, List.append_assoc,
      mapGet_optField_skip, mapGet_optField_hit, mapGet_optField_only_hit,
      mapGet_optField_only_ne])
  have hhost := optStrField_map_str (encodeStatusMeta m) "hostname" m.hostname
    (by simp +decide [encodeStatusMeta, Json.lookup, List.append_assoc,
      mapGet_optField_skip, mapGet_optField_hit, mapGet_optField_only_hit,
      mapGet_optField_only_ne])
  have hip := optStrField_map_str (encodeStatusMeta m) "ip" m.ip
    (by simp +decide [encodeStatusMeta, Json.lookup, List.append_assoc,
      mapGet_optField_skip, mapGet_optField_hit, mapGet_optField_only_hit,
      mapGet_optField_only_ne])
  have hver := optStrField_map_str (encodeStatusMeta m) "version" m.version
    (by simp +decide [encodeStatusMeta, Json.lookup, List.append_assoc,
      mapGet_optField_skip, mapGet_optField_hit, mapGet_optField_only_hit,
      mapGet_optField_only_ne])
  have hreason := optStrField_map_str (encodeStatusMeta m) "reason" m.reason
    (by simp +decide [encodeStatusMeta, Json.lookup, List.append_assoc,
      mapGet_optField_skip, mapGet_optField_hit, mapGet_optField_only_hit,
      mapGet_optField_only_ne])
  have hlh := optNatField_map_num (encodeStatusMeta m) "lastHeartbeat" m.lastHeartbeat
    (by cases hx : m.lastHeartbeat <;>
      simp +decide [hx, encodeStatusMeta, Json.lookup, List.append_assoc,
        mapGet_optField_skip, mapGet_optField_hit, mapGet_optField_only_hit,
        mapGet_optField_only_ne])
  simp [decodeStatusMeta, hpn, hloc, hinst, how, hhost, hip, hver, hreason, hlh]

/-- The `JSON.parse (JSON.stringify m)` recovers an alert-metadata object
field-for-field, absent fields staying absent. -/
theorem decodeAlertMeta_encode (m : AlertMetadata) :
    decodeAlertMeta (encodeAlertMeta m) = some m := by
  have hcomp := optStrField_map_str (encodeAlertMeta m) "component" m.component
    (by simp +decide [encodeAlertMeta, Json.lookup, List.append_assoc,
      mapGet_optField_skip, mapGet_optField_hit, mapGet_optField_only_hit,
      mapGet_optField_only_ne])
  have hhost := optStrField_map_str (encodeAlertMeta m) "hostname" m.hostname
    (by simp +decide [encodeAlertMeta, Json.lookup, List.append_assoc,
      mapGet_optField_skip, mapGet_optField_hit, mapGet_optField_only_hit,
      mapGet_optField_only_ne])
  have hip := optStrField_map_str (encodeAlertMeta m) "ip" m.ip
    (by simp +decide [encodeAlertMeta, Json.lookup, List.append_assoc,
      mapGet_optField_skip, mapGet_optField_hit, mapGet_optField_only_hit,
      mapGet_optField_only_ne])
  have hver := optStrField_map_str (encodeAlertMeta m) "version" m.version
    (by simp +decide [encodeAlertMeta, Json.lookup, List.append_assoc,
      mapGet_optField_skip, mapGet_optField_hit, mapGet_optField_only_hit,
      mapGet_optField_only_ne])
  have hcid := optStrField_map_str (encodeAlertMeta m) "clientId" m.clientId
    (by simp +decide [encodeAlertMeta, Json.lookup, List.append_assoc,
      mapGet_optField_skip, mapGet_optField_hit, mapGet_optField_only_hit,
      mapGet_optField_only_ne])
  have hai : (encodeAlertMeta m).lookup "additionalInfo" = m.additionalInfo := by
    simp +decide [encodeAlertMeta, Json.lookup, List.append_assoc,
      mapGet_optField_skip, mapGet_optField_hit, mapGet_optField_only_hit,
      mapGet_optField_only_ne]
  have hpn : (encodeAlertMeta m).lookup "projectName" = some (.str m.projectName) := by
    simp +decide [encodeAlertMeta, Json.lookup]
  have hloc : (encodeAlertMeta m).lookup "location" = some (.str m.location) := by
    simp +decide [encodeAlertMeta, Json.lookup]
  simp [decodeAlertMeta, hpn, hloc, hcomp, hhost, hip, hver, hcid, hai, Json.asStr]

/-- A StatusEvent survives the relay channel unchanged: `JSON.parse` of
`JSON.stringify(status)` recovers every field, absent optional fields
staying absent. -/
theorem decodeStatus_encode (s : ConnectionStatus) :
    decodeStatus (encodeStatus s) = some s := by
  obtain ⟨cid, st, ts, md⟩ := s
  cases md with
  | none =>
      cases st <;>
        simp +decide [decodeStatus, encodeStatus, Json.lookup, Json.asStr,
          Json.asNat, decodeWireStatus, encodeWireStatus, optField]
  | some m =>
      cases st <;>
        simp +decide [decodeStatus, encodeStatus, Json.lookup, Json.asStr,
          Json.asNat, decodeWireStatus, encodeWireStatus, optField,
          List.append_assoc, decodeStatusMeta_encode]

/-- An Alert survives the relay channel unchanged: `JSON.parse` of
`JSON.stringify(alert)` recovers every field, absent optional fields
staying absent. -/
theorem decodeAlert_encode (a : Alert) : decodeAlert (encodeAlert a) = some a := by
  obtain ⟨ty, msg, sev, ts, md⟩ := a
  cases ts <;> cases sev <;>
    simp +decide [decodeAlert, encodeAlert, Json.lookup, Json.asStr,
      optNatField, Json.asNat, decodeSeverity, encodeSeverity, optField,
      List.append_assoc, decodeAlertMeta_encode]

/-- Observable side effects of the publisher service: Redis publishes,
database writes (`recordConnectionStatus`), Telegram notification-sink
calls, and socket.io broadcasts to live viewers. -/
inductive Eff where
  | publish (channel : String) (payload : Json) : Eff
  | dbRecord (clientId : String) (status : ClientStatus) (reason : Option String) : Eff
  | telegramAlert (clientId : Option String) (severity : Severity) : Eff
  | khmerAlert (clientId : String) : Eff
  | ioEmit (event : String) (payload : Json) : Eff

/-- The error thrown by the publish guard:
`throw new Error('Redis publisher not connected')`. -/
inductive PublishError where
  | notConnected : PublishError
deriving DecidableEq, Repr

/-- The `publishConnectionStatus` (src/src/services/publisher.service.ts lines
509-525): when the `connected` flag is false the guard throws before any
publish; otherwise `JSON.stringify(status)` is published on the
connection-status channel.  The catch block rethrows, so the error reaches
the caller. -/
def publishConnectionStatus (connected : Bool) (status : ConnectionStatus) :
    Except PublishError (List Eff) :=
  if connected then
    .ok [.publish CHANNELS_CONNECTION_STATUS (encodeStatus status)]
  else
    .error .notConnected

/-- The `publishSystemMetrics` (src/src/services/publisher.service.ts lines
527-543): same guard, system-metrics channel. -/
def publishSystemMetrics (connected : Bool) (metrics : SystemMetrics) :
    Except PublishError (List Eff) :=
  if connected then
    .ok [.publish CHANNELS_SYSTEM_METRICS (encodeMetrics metrics)]
  else
    .error .notConnected

/-- The `publishAlert` (src/src/services/publisher.service.ts lines 545-573):
guard first; then the timestamp-defaulted payload is published on the
alerts channel, formatted and forwarded to the Telegram sink, and emitted
to all connected viewers. -/
def publishAlert (connected : Bool) (now : Nat) (alert : Alert) :
    Except PublishError (List Eff) :=
  if connected then
    .ok [.publish CHANNELS_ALERTS (encodeAlert (publishAlertPayload now alert)),
         .telegramAlert alert.metadata.clientId alert.severity,
         .ioEmit "alert" (encodeAlert (publishAlertPayload now alert))]
  else
    .error .notConnected

/-- The `publishConnectionStatus` of the slim service revision
(src/src/services/publisher.services.ts lines 27-44): it has the same
connected guard. -/
def publishConnectionStatusSlim (connected : Bool) (status : ConnectionStatus) :
    Except PublishError (List Eff) :=
  if connected then
    .ok [.publish CHANNELS_CONNECTION_STATUS (encodeStatus status)]
  else
    .error .notConnected

/-- The `publishSystemMetrics` of the slim service revision
(src/src/services/publisher.services.ts lines 46-59): this revision has NO
connected guard — it attempts the publish unconditionally. -/
def publishSystemMetricsSlim (_connected : Bool) (metrics : SystemMetrics) :
    Except PublishError (List Eff) :=
  .ok [.publish CHANNELS_SYSTEM_METRICS (encodeMetrics metrics)]

/-- The `publishAlert` of the slim service revision
(src/src/services/publisher.services.ts lines 61-80): no connected guard;
the payload `{ ...alert, timestamp: Date.now() }` is published
unconditionally. -/
def publishAlertSlim (_connected : Bool) (now : Nat)
    (type message : String) (severity : Severity) :
    Except PublishError (List Eff) :=
  .ok [.publish CHANNELS_ALERTS
    (.obj [("type", .str type), ("message", .str message),
           ("severity", encodeSeverity severity), ("timestamp", .num now)])]

/-- Effects carried by a publish result; a thrown guard error yields none
because the guard precedes every effectful statement. -/
def publishEffects (r : Except PublishError (List Eff)) : List Eff :=
  match r with
  | .ok es => es
  | .error _ => []

def Eff.isPublish : Eff → Bool
  | .publish _ _ => true
  | _ => false

/-- Number of Redis publish attempts a call performs. -/
def publishCount (r : Except PublishError (List Eff)) : Nat :=
  ((publishEffects r).filter Eff.isPublish).length

/-- The `ConnectedClient` (src/src/server/publisher.ts lines 411-418): one
registry entry.  The `id` member is declared optional and no code path
ever assigns it (the earlier revision in publisher.service.ts lines 10-16
omits it entirely, which behaves as `id` being permanently absent). -/
structure ConnectedClient where
  id : Option String
  lastHeartbeat : Nat
  lastReport : Option Nat
  status : ClientStatus
  metadata : Option StatusMeta
  metrics : Option SystemMetrics
deriving DecidableEq, Repr

/-- The in-memory client registry:
`connectedClients = new Map<string, ConnectedClient>()`. -/
abbrev Registry : Type := List (String × ConnectedClient)

/-- The `registerClient` (src/src/services/publisher.service.ts lines 131-151
and, identically, src/src/server/publisher.ts lines 570-590): a FRESH
record — only `lastHeartbeat`, `status`, `metadata` — replaces whatever was
stored under the key; then the online status is recorded durably and an
`initial_connection` StatusEvent is published (publish failures are caught
and logged). -/
def registerClient (reg : Registry) (connected : Bool) (clientId : String)
    (now : Nat) (metadata : Option StatusMeta) : Registry × List Eff :=
  (mapSet reg clientId
      { id := none, lastHeartbeat := now, lastReport := none,
        status := .online, metadata := metadata, metrics := none },
   .dbRecord clientId .online none ::
     publishEffects (publishConnectionStatus connected
       { clientId := clientId, status := .online, timestamp := now,
         metadata := some { projectName := metadata.bind (fun m => m.projectName),
                            location := metadata.bind (fun m => m.location),
                            installedDate := metadata.bind (fun m => m.installedDate),
                            owner := metadata.bind (fun m => m.owner),
                            hostname := metadata.bind (fun m => m.hostname),
                            ip := metadata.bind (fun m => m.ip),
                            version := metadata.bind (fun m => m.version),
                            reason := some "initial_connection",
                            lastHeartbeat := none } }))

/-- The `heartbeat` socket handler (src/src/services/publisher.service.ts
lines 91-98): refresh `lastHeartbeat` and `metadata` of an existing entry;
an unknown client is ignored. -/
def onHeartbeat (reg : Registry) (clientId : String) (now : Nat)
    (metadata : Option StatusMeta) : Registry :=
  match mapGet reg clientId with
  | none => reg
  | some c => mapSet reg clientId
      { c with lastHeartbeat := now, metadata := metadata }

/-- The `metrics` socket handler (src/src/services/publisher.service.ts
lines 100-113): forward the sample to the metrics channel, then refresh
`lastHeartbeat`, `metrics` and `metadata` of an existing entry. -/
def onMetrics (reg : Registry) (connected : Bool) (clientId : String)
    (now : Nat) (metrics : SystemMetrics) (metadata : Option StatusMeta) :
    Registry × List Eff :=
  (match mapGet reg clientId with
   | none => reg
   | some c => mapSet reg clientId
       { c with lastHeartbeat := now, metrics := some metrics,
                metadata := metadata },
   publishEffects (publishSystemMetrics connected
     { metrics with clientId := some clientId }))

/-- A `ConnectedClient` built by spreading a possibly-undefined record
(`{...client, ...}` with `client` undefined): every unlisted member is
absent. -/
def emptyClient : ConnectedClient :=
  { id := none, lastHeartbeat := 0, lastReport := none,
    status := .offline, metadata := none, metrics := none }

/-- The `handleConnectionStatus` (src/src/services/publisher.service.ts lines
341-417), registry part plus observable effects.  An `'online'` event
stores a fresh online record keyed by the event's clientId; any other
status (`'offline'` or `'idle'`) stores
`{ ...client, lastHeartbeat: status.timestamp, status: 'offline' }`,
creating the entry when the client was unknown. -/
def handleConnectionStatus (reg : Registry) (now : Nat)
    (status : ConnectionStatus) : Registry × List Eff :=
  let client := mapGet reg status.clientId
  if status.status = .online then
    (mapSet reg status.clientId
        { id := none, lastHeartbeat := now, lastReport := none,
          status := .online, metadata := status.metadata, metrics := none },
     match client with
     | none => [.telegramAlert (some status.clientId) .info,
                .dbRecord status.clientId .online none]
     | some c =>
         if c.status = .offline then
           [.telegramAlert (some status.clientId) .info,
            .dbRecord status.clientId .online none]
         else [])
  else
    let transitionEffs :=
      match client with
      | some c =>
          if c.status = .online then
            [.dbRecord status.clientId .offline
               (status.metadata.bind (fun m => m.reason)),
             .telegramAlert (some status.clientId) .warning]
          else []
      | none => []
    let reg2 := mapSet reg status.clientId
      { (client.getD emptyClient) with
        lastHeartbeat := status.timestamp, status := .offline }
    let remainingActive :=
      (reg2.map Prod.snd).filter (fun c => c.status == .online)
    (reg2,
     transitionEffs ++
       (if remainingActive.length = 0
        then [Eff.telegramAlert none .warning] else []))

/-- The `OFFLINE_THRESHOLD = 5 * 60 * 1000` (src/src/server/publisher.ts line
594 and src/src/services/publisher.service.ts line 156). -/
def OFFLINE_THRESHOLD : Nat := 5 * 60 * 1000

/-- The `ALERT_INTERVAL = 5 * 60 * 1000`, the suppression window
(src/src/server/publisher.ts line 668). -/
def ALERT_INTERVAL : Nat := 5 * 60 * 1000

/-- The `CHECK_INTERVAL = 60000`, the sweep period (src/src/server/publisher.ts
line 593). -/
def CHECK_INTERVAL : Nat := 60000

/-- One row of the durable `connections` store as consumed by the sweep
(`ConnectionRecord`, src/src/server/publisher.ts lines 420-430; only the
members the sweep reads). -/
structure ConnectionRecord where
  client_id : String
  project_name : String
  location : String
  last_seen : Nat
deriving DecidableEq, Repr

/-- The `lastAlertTimes = new Map<string, Date>()`
(src/src/server/publisher.ts line 443), the alert-suppression entries. -/
abbrev AlertTimes : Type := List (String × Nat)

/-- The suppression key `last_alert_${client.client_id}`
(src/src/server/publisher.ts line 666). -/
def suppressionKey (clientId : String) : String :=
  "last_alert_" ++ clientId

/-- The effects of one fired offline alert
(src/src/server/publisher.ts lines 680-702): durable offline record with
reason `connection_lost`, a Telegram warning, and the Khmer desktop-down
alert. -/
def offlineAlertEffects (rec : ConnectionRecord) : List Eff :=
  [.dbRecord rec.client_id .offline (some "connection_lost"),
   .telegramAlert (some rec.client_id) .warning,
   .khmerAlert rec.client_id]

/-- The suppression-gated body of `handleClientOffline`
(src/src/server/publisher.ts lines 665-707): if no entry exists under the
client's suppression key, or the existing entry is at least
`ALERT_INTERVAL` old, record/alert and stamp the entry; otherwise do
nothing. -/
def fireOfflineAlert (lat : AlertTimes) (now : Nat) (rec : ConnectionRecord) :
    AlertTimes × List Eff :=
  match mapGet lat (suppressionKey rec.client_id) with
  | some t =>
      if now - t ≥ ALERT_INTERVAL then
        (mapSet lat (suppressionKey rec.client_id) now, offlineAlertEffects rec)
      else (lat, [])
  | none =>
      (mapSet lat (suppressionKey rec.client_id) now, offlineAlertEffects rec)

/-- The `handleClientOffline` (src/src/server/publisher.ts lines 658-707): an
early return when the registry still shows the client online with a
heartbeat inside `OFFLINE_THRESHOLD`; otherwise the suppression-gated
alert body.  It never writes to the registry. -/
def handleClientOffline (reg : Registry) (lat : AlertTimes) (now : Nat)
    (rec : ConnectionRecord) : AlertTimes × List Eff :=
  match mapGet reg rec.client_id with
  | some c =>
      if c.status = .online ∧ now - c.lastHeartbeat < OFFLINE_THRESHOLD then
        (lat, [])
      else fireOfflineAlert lat now rec
  | none => fireOfflineAlert lat now rec

/-- The `activeClients` computation
(src/src/server/publisher.ts lines 606-607):
`Array.from(this.connectedClients.values()).filter(c => c.status === 'online')`. -/
def activeClients (reg : Registry) : List ConnectedClient :=
  (reg.map Prod.snd).filter (fun c => c.status == .online)

/-- The per-row body of the sweep loop in the publisher.ts revision
(src/src/server/publisher.ts lines 611-626):
`isConnected = activeClients.some(client => client.id === clientId)`; when
the row is not connected and its durable `last_seen` is stale, the registry
entry is consulted — a client still online with a fresh heartbeat is
skipped, anyone else goes to `handleClientOffline`. -/
def sweepRowV2 (reg : Registry) (lat : AlertTimes) (now : Nat)
    (rec : ConnectionRecord) : AlertTimes × List Eff :=
  let isConnected := (activeClients reg).any (fun c => c.id == some rec.client_id)
  if ¬isConnected ∧ now - rec.last_seen > OFFLINE_THRESHOLD then
    match mapGet reg rec.client_id with
    | none => handleClientOffline reg lat now rec
    | some c =>
        if ¬(c.status = .online) ∨ now - c.lastHeartbeat > OFFLINE_THRESHOLD then
          handleClientOffline reg lat now rec
        else (lat, [])
  else (lat, [])

/-- The `for (const row of rows) { ... }` of the publisher.ts sweep, threading
the suppression map and accumulating effects in order. -/
def sweepRowsV2 (reg : Registry) (lat : AlertTimes) (now : Nat) :
    List ConnectionRecord → AlertTimes × List Eff
  | [] => (lat, [])
  | r :: rs =>
      let step := sweepRowV2 reg lat now r
      let rest := sweepRowsV2 reg step.1 now rs
      (rest.1, step.2 ++ rest.2)

/-- The `for (const client of offlineClients) { ... }`
(src/src/server/publisher.ts lines 628-633): every stale offline row goes
straight to `handleClientOffline`. -/
def sweepOfflineRowsV2 (reg : Registry) (lat : AlertTimes) (now : Nat) :
    List ConnectionRecord → AlertTimes × List Eff
  | [] => (lat, [])
  | r :: rs =>
      let step :=
        if now - r.last_seen > OFFLINE_THRESHOLD then
          handleClientOffline reg lat now r
        else (lat, [])
      let rest := sweepOfflineRowsV2 reg step.1 now rs
      (rest.1, step.2 ++ rest.2)

/-- One full cycle of `startClientMonitoring` in the publisher.ts revision
(src/src/server/publisher.ts lines 592-656): scan the registered rows, then
the stale offline rows, then raise the fleet-wide "no active clients"
warning when the registry holds no online entry.  The cycle never writes
to the registry. -/
def sweepCycleV2 (reg : Registry) (lat : AlertTimes) (now : Nat)
    (rows offlineRows : List ConnectionRecord) : AlertTimes × List Eff :=
  let step1 := sweepRowsV2 reg lat now rows
  let step2 := sweepOfflineRowsV2 reg step1.1 now offlineRows
  let fleet :=
    if (activeClients reg).length = 0
    then [Eff.telegramAlert none .warning] else []
  (step2.1, step1.2 ++ step2.2 ++ fleet)

/-- The `isConnected` test of the publisher.service.ts sweep revision
(src/src/services/publisher.service.ts line 180):
`activeClients.some(client => client.clientId === clientId)`.  The
`ConnectedClient` interface of that file (lines 10-16) declares no
`clientId` member and no code path assigns one, so `client.clientId` is
`undefined` and the strict equality with the row's string id is false for
every element. -/
def isConnectedV1 (reg : Registry) (_clientId : String) : Bool :=
  (activeClients reg).any (fun _ => false)

/-- The per-row body of the sweep loop in the publisher.service.ts revision
(src/src/services/publisher.service.ts lines 178-221): when the row is not
connected and its durable `last_seen` is stale, immediately record the
offline status with reason `connection_lost` and send the Telegram and
Khmer alerts.  There is no registry-freshness confirmation and no
suppression gate in this revision. -/
def sweepRowV1 (reg : Registry) (now : Nat) (rec : ConnectionRecord) :
    List Eff :=
  if ¬isConnectedV1 reg rec.client_id ∧ now - rec.last_seen > OFFLINE_THRESHOLD then
    offlineAlertEffects rec
  else []

/-- One full cycle of `startClientMonitoring` in the publisher.service.ts
revision (src/src/services/publisher.service.ts lines 154-245): scan the
rows, then raise the fleet-wide warning when no registry entry is online. -/
def sweepCycleV1 (reg : Registry) (now : Nat)
    (rows : List ConnectionRecord) : List Eff :=
  (rows.map (sweepRowV1 reg now)).flatten ++
    (if (activeClients reg).length = 0
     then [Eff.telegramAlert none .warning] else [])

/-- The `MAX_RECONNECT_ATTEMPTS = 5` (src/unnamed/part_007 line 13). -/
def MAX_RECONNECT_ATTEMPTS : Nat := 5

/-- The `RECONNECT_INTERVAL = 5000` (src/unnamed/part_007 line 14). -/
def RECONNECT_INTERVAL : Nat := 5000

/-- The `MAX_RECONNECT_INTERVAL = 30000` (src/unnamed/part_007 line 15). -/
def MAX_RECONNECT_INTERVAL : Nat := 30000

/-- The `getReconnectDelay` (src/unnamed/part_007 lines 43-45):
`min(RECONNECT_INTERVAL * 2 ** reconnectAttempts, MAX_RECONNECT_INTERVAL)`. -/
def getReconnectDelay (reconnectAttempts : Nat) : Nat :=
  min (RECONNECT_INTERVAL * 2 ^ reconnectAttempts) MAX_RECONNECT_INTERVAL

/-- Mutable state of `SocketClient` (src/unnamed/part_007 lines 9-18):
whether a socket object exists and reports connected, the attempt counter,
the `isReconnecting` latch, and the pending reconnect timer's delay (absent
when no timer is scheduled). -/
structure SocketClientState where
  socketExists : Bool
  socketConnected : Bool
  reconnectAttempts : Nat
  isReconnecting : Bool
  reconnectTimer : Option Nat
deriving DecidableEq, Repr

/-- The `connect` (src/unnamed/part_007 lines 25-41): an early return when the
socket already reports connected or a reconnection is in flight; otherwise
a new socket object is created and its listeners installed.  Note it does
NOT touch `reconnectAttempts`. -/
def SocketClient.connect (s : SocketClientState) : SocketClientState :=
  if s.socketConnected ∨ s.isReconnecting then s
  else { s with socketExists := true }

/-- The `'connect'` success listener (src/unnamed/part_007 lines 50-57):
reset the attempt counter, clear the latch, cancel any pending timer. -/
def onConnectSuccess (s : SocketClientState) : SocketClientState :=
  { s with socketConnected := true, reconnectAttempts := 0,
           isReconnecting := false, reconnectTimer := none }

/-- The `'reconnect_failed'` listener (src/unnamed/part_007 lines 80-84):
clear the latch (and emit the RECONNECTION_FAILED alert through
`sendReconnectionAlert`). -/
def onReconnectFailed (s : SocketClientState) : SocketClientState :=
  { s with isReconnecting := false }

/-- The `handleReconnection` (src/unnamed/part_007 lines 101-120): an early
return when already reconnecting or the counter has reached
`MAX_RECONNECT_ATTEMPTS`; otherwise latch, increment the counter, and
schedule a reconnect attempt after `getReconnectDelay()` evaluated at the
already-incremented counter. -/
def handleReconnection (s : SocketClientState) : SocketClientState :=
  if s.isReconnecting ∨ s.reconnectAttempts ≥ MAX_RECONNECT_ATTEMPTS then s
  else
    { s with isReconnecting := true,
             reconnectAttempts := s.reconnectAttempts + 1,
             reconnectTimer := some (getReconnectDelay (s.reconnectAttempts + 1)) }

/-- What the agent-side socket emits. -/
inductive ClientEmission where
  | alertEmit (a : Alert) : ClientEmission

/-- The `sendAlert` (src/unnamed/part_007 lines 154-169): when
`socket?.connected` is falsy the method logs a warning and returns
normally — nothing is emitted and no error reaches the caller; otherwise
the alert is emitted with `timestamp: Date.now()`. -/
def SocketClient.sendAlert (s : SocketClientState) (now : Nat) (a : Alert) :
    Except String (List ClientEmission) :=
  if s.socketExists ∧ s.socketConnected then
    .ok [.alertEmit { a with timestamp := some now }]
  else
    .ok []

/-- The alert constructed by `sendReconnectionAlert`
(src/unnamed/part_007 lines 122-135). -/
def reconnectionAlert (meta : AlertMetadata) (attempts : Nat)
    (type : String) (severity : Severity) : Alert :=
  { type := type,
    message := "Client " ++ type.toLower ++ " (Attempt " ++ toString attempts
      ++ "/" ++ toString MAX_RECONNECT_ATTEMPTS ++ ")",
    severity := severity,
    timestamp := none,
    metadata := { meta with additionalInfo := some (.obj
      [("reconnectAttempts", .num attempts),
       ("maxAttempts", .num MAX_RECONNECT_ATTEMPTS)]) } }

/-- The `sendReconnectionAlert` (src/unnamed/part_007 lines 122-135): build the
reconnection alert and hand it to `sendAlert`. -/
def sendReconnectionAlert (s : SocketClientState) (now : Nat)
    (meta : AlertMetadata) (type : String) (severity : Severity) :
    Except String (List ClientEmission) :=
  SocketClient.sendAlert s now
    (reconnectionAlert meta s.reconnectAttempts type severity)

/-- Sample metadata used for concrete evaluations. -/
def sampleMeta : AlertMetadata :=
  { projectName := "P", location := "L", component := none, hostname := none,
    ip := none, version := none, clientId := none, additionalInfo := none }

/-- Sample alert with an absent timestamp. -/
def sampleAlert : Alert :=
  { type := "TEST_ALERT", message := "msg", severity := .info,
    timestamp := none, metadata := sampleMeta }

/-- Sample metrics payload. -/
def sampleMetrics : SystemMetrics :=
  { clientId := some "a1", cpuUsage := 10, memoryUsage := 100,
    totalMemory := 1000, freeMemory := 900, uptime := 5, timestamp := 1234 }

/-- Sample handshake metadata for a registering agent. -/
def sampleStatusMeta : StatusMeta :=
  { projectName := some "P", location := some "L",
    installedDate := some "2024-01-01", owner := some "O", hostname := none,
    ip := none, version := none, reason := none, lastHeartbeat := none }

/-- Which client an effect concerns (`none` for the fleet-wide warning and
for raw channel traffic). -/
def effClientTag : Eff → Option String
  | .publish _ _ => none
  | .dbRecord cid _ _ => some cid
  | .telegramAlert cid _ => cid
  | .khmerAlert cid => some cid
  | .ioEmit _ _ => none

/-- The effects of a list that concern one given client. -/
def effectsFor (es : List Eff) (aid : String) : List Eff :=
  es.filter (fun e => effClientTag e == some aid)

theorem mapGet_mapSet_self {α : Type} (m : List (String × α)) (k : String)
    (v : α) : mapGet (mapSet m k v) k = some v := by
  induction m with
  | nil => simp [mapSet, mapGet]
  | cons p t ih =>
      by_cases h : (p.1 == k) = true
      · simp [mapSet, h, mapGet]
      · simp only [Bool.not_eq_true] at h
        simp [mapSet, h, mapGet, ih]

theorem mapGet_mapSet_ne {α : Type} (m : List (String × α)) (k k' : String)
    (v : α) (h : (k == k') = false) :
    mapGet (mapSet m k v) k' = mapGet m k' := by
  induction m with
  | nil => simp [mapSet, mapGet, h]
  | cons p t ih =>
      by_cases hp : (p.1 == k) = true
      · have hpk : p.1 = k := by simpa using hp
        simp [mapSet, hp, mapGet, h, hpk]
      · simp only [Bool.not_eq_true] at hp
        simp [mapSet, hp, mapGet, ih]

theorem suppressionKey_inj {a b : String}
    (h : suppressionKey a = suppressionKey b) : a = b := by
  have hd : ("last_alert_" ++ a).data = ("last_alert_" ++ b).data :=
    congrArg String.data h
  simp only [String.data_append, List.append_cancel_left_eq] at hd
  cases a
  cases b
  exact congrArg String.mk hd

theorem suppressionKey_beq_false {a b : String} (h : a ≠ b) :
    (suppressionKey a == suppressionKey b) = false := by
  rw [beq_eq_false_iff_ne]
  intro he
  exact h (suppressionKey_inj he)

theorem offlineAlertEffects_tag (rec : ConnectionRecord) :
    ∀ e ∈ offlineAlertEffects rec, effClientTag e = some rec.client_id := by
  intro e he
  simp only [offlineAlertEffects, List.mem_cons, List.mem_singleton,
    List.not_mem_nil, or_false] at he
  rcases he with h | h | h <;> subst h <;> rfl

theorem fireOfflineAlert_cases (lat : AlertTimes) (now : Nat)
    (rec : ConnectionRecord) :
    fireOfflineAlert lat now rec = (lat, []) ∨
    fireOfflineAlert lat now rec =
      (mapSet lat (suppressionKey rec.client_id) now, offlineAlertEffects rec) := by
  cases h : mapGet lat (suppressionKey rec.client_id) with
  | none => right; simp [fireOfflineAlert, h]
  | some t =>
      by_cases h2 : now - t ≥ ALERT_INTERVAL
      · right; simp [fireOfflineAlert, h, h2]
      · left; simp [fireOfflineAlert, h, h2]

theorem handleClientOffline_cases (reg : Registry) (lat : AlertTimes)
    (now : Nat) (rec : ConnectionRecord) :
    handleClientOffline reg lat now rec = (lat, []) ∨
    handleClientOffline reg lat now rec =
      (mapSet lat (suppressionKey rec.client_id) now, offlineAlertEffects rec) := by
  cases h : mapGet reg rec.client_id with
  | none =>
      simpa [handleClientOffline, h] using fireOfflineAlert_cases lat now rec
  | some c =>
      by_cases h2 : c.status = .online ∧ now - c.lastHeartbeat < OFFLINE_THRESHOLD
      · left; simp [handleClientOffline, h, h2]
      · simpa [handleClientOffline, h, h2] using fireOfflineAlert_cases lat now rec

theorem sweepRowV2_cases (reg : Registry) (lat : AlertTimes) (now : Nat)
    (rec : ConnectionRecord) :
    sweepRowV2 reg lat now rec = (lat, []) ∨
    sweepRowV2 reg lat now rec =
      (mapSet lat (suppressionKey rec.client_id) now, offlineAlertEffects rec) := by
  simp only [sweepRowV2]
  split
  · split
    · exact handleClientOffline_cases reg lat now rec
    · split
      · exact handleClientOffline_cases reg lat now rec
      · left; rfl
  · left; rfl

theorem effectsFor_nil (aid : String) : effectsFor [] aid = [] := rfl

theorem effectsFor_append (a b : List Eff) (aid : String) :
    effectsFor (a ++ b) aid = effectsFor a aid ++ effectsFor b aid := by
  simp [effectsFor]

theorem effectsFor_offline_ne (rec : ConnectionRecord) (aid : String)
    (h : rec.client_id ≠ aid) :
    effectsFor (offlineAlertEffects rec) aid = [] := by
  simp [effectsFor, offlineAlertEffects, effClientTag, h]

theorem handleClientOffline_fresh_skip (reg : Registry) (lat : AlertTimes)
    (now : Nat) (rec : ConnectionRecord) (c : ConnectedClient)
    (hc : mapGet reg rec.client_id = some c) (honline : c.status = .online)
    (hfresh : now - c.lastHeartbeat < OFFLINE_THRESHOLD) :
    handleClientOffline reg lat now rec = (lat, []) := by
  simp [handleClientOffline, hc, honline, hfresh]

theorem sweepRowV2_fresh_skip (reg : Registry) (lat : AlertTimes)
    (now : Nat) (rec : ConnectionRecord) (c : ConnectedClient)
    (hc : mapGet reg rec.client_id = some c) (honline : c.status = .online)
    (hfresh : now - c.lastHeartbeat < OFFLINE_THRESHOLD) :
    sweepRowV2 reg lat now rec = (lat, []) := by
  have hnot : ¬(now - c.lastHeartbeat > OFFLINE_THRESHOLD) := Nat.lt_asymm hfresh
  simp [sweepRowV2, hc, honline, hnot]

theorem fireOfflineAlert_suppressed (lat : AlertTimes) (now2 : Nat)
    (rec : ConnectionRecord) (t : Nat)
    (hkey : mapGet lat (suppressionKey rec.client_id) = some t)
    (hwin : now2 - t < ALERT_INTERVAL) :
    fireOfflineAlert lat now2 rec = (lat, []) := by
  simp [fireOfflineAlert, hkey, Nat.not_le.mpr hwin]

theorem handleClientOffline_suppressed (reg : Registry) (lat : AlertTimes)
    (now2 : Nat) (rec : ConnectionRecord) (t : Nat)
    (hkey : mapGet lat (suppressionKey rec.client_id) = some t)
    (hwin : now2 - t < ALERT_INTERVAL) :
    handleClientOffline reg lat now2 rec = (lat, []) := by
  cases h : mapGet reg rec.client_id with
  | none =>
      simp [handleClientOffline, h,
        fireOfflineAlert_suppressed lat now2 rec t hkey hwin]
  | some c =>
      by_cases h2 : c.status = .online ∧ now2 - c.lastHeartbeat < OFFLINE_THRESHOLD
      · simp [handleClientOffline, h, h2]
      · simp [handleClientOffline, h, h2,
          fireOfflineAlert_suppressed lat now2 rec t hkey hwin]

theorem sweepRowV2_suppressed (reg : Registry) (lat : AlertTimes)
    (now2 : Nat) (rec : ConnectionRecord) (t : Nat)
    (hkey : mapGet lat (suppressionKey rec.client_id) = some t)
    (hwin : now2 - t < ALERT_INTERVAL) :
    sweepRowV2 reg lat now2 rec = (lat, []) := by
  have hh := handleClientOffline_suppressed reg lat now2 rec t hkey hwin
  simp only [sweepRowV2]
  split
  · split
    · exact hh
    · split
      · exact hh
      · rfl
  · rfl

theorem sweepRowsV2_fresh (reg : Registry) (now : Nat) (aid : String)
    (c : ConnectedClient) (hc : mapGet reg aid = some c)
    (honline : c.status = .online)
    (hfresh : now - c.lastHeartbeat < OFFLINE_THRESHOLD) :
    ∀ (rows : List ConnectionRecord) (lat : AlertTimes),
      effectsFor (sweepRowsV2 reg lat now rows).2 aid = [] := by
  intro rows
  induction rows with
  | nil => intro lat; rfl
  | cons r rs ih =>
      intro lat
      simp only [sweepRowsV2, effectsFor_append]
      rw [List.append_eq_nil]
      refine ⟨?_, ih _⟩
      by_cases hr : r.client_id = aid
      · rw [sweepRowV2_fresh_skip reg lat now r c (by rw [hr]; exact hc)
          honline hfresh]
        rfl
      · rcases sweepRowV2_cases reg lat now r with hstep | hstep
        · rw [hstep]
          rfl
        · rw [hstep]
          exact effectsFor_offline_ne r aid hr

theorem sweepOfflineRowsV2_fresh (reg : Registry) (now : Nat) (aid : String)
    (c : ConnectedClient) (hc : mapGet reg aid = some c)
    (honline : c.status = .online)
    (hfresh : now - c.lastHeartbeat < OFFLINE_THRESHOLD) :
    ∀ (rows : List ConnectionRecord) (lat : AlertTimes),
      effectsFor (sweepOfflineRowsV2 reg lat now rows).2 aid = [] := by
  intro rows
  induction rows with
  | nil => intro lat; rfl
  | cons r rs ih =>
      intro lat
      simp only [sweepOfflineRowsV2, effectsFor_append]
      rw [List.append_eq_nil]
      constructor
      · by_cases hstale : now - r.last_seen > OFFLINE_THRESHOLD
        · simp only [hstale, if_true]
          by_cases hr : r.client_id = aid
          · rw [handleClientOffline_fresh_skip reg lat now r c
              (by rw [hr]; exact hc) honline hfresh]
            rfl
          · rcases handleClientOffline_cases reg lat now r with hstep | hstep
            · rw [hstep]
              rfl
            · rw [hstep]
              exact effectsFor_offline_ne r aid hr
        · simp only [hstale, if_false]
          rfl
      · exact ih _

/-- The fleet-wide "no active clients" warning carries no client id. -/
theorem effectsFor_fleet (aid : String) (p : Prop) [Decidable p] :
    effectsFor (if p then [Eff.telegramAlert none .warning] else []) aid = [] := by
  split <;> simp [effectsFor, effClientTag]

theorem sweepRowsV2_suppressed (aid : String) (now : Nat) :
    ∀ (rows : List ConnectionRecord) (reg2 : Registry) (lat2 : AlertTimes)
      (now2 : Nat),
      mapGet lat2 (suppressionKey aid) = some now →
      now2 - now < ALERT_INTERVAL →
      effectsFor (sweepRowsV2 reg2 lat2 now2 rows).2 aid = []
      ∧ mapGet (sweepRowsV2 reg2 lat2 now2 rows).1 (suppressionKey aid) =
          some now := by
  intro rows
  induction rows with
  | nil => intro reg2 lat2 now2 hkey hwin; exact ⟨rfl, hkey⟩
  | cons r rs ih =>
      intro reg2 lat2 now2 hkey hwin
      by_cases hr : r.client_id = aid
      · have hstep : sweepRowV2 reg2 lat2 now2 r = (lat2, []) := by
          refine sweepRowV2_suppressed reg2 lat2 now2 r now ?_ hwin
          rw [hr]
          exact hkey
        obtain ⟨ih1, ih2⟩ := ih reg2 lat2 now2 hkey hwin
        simp only [sweepRowsV2, hstep]
        exact ⟨by simpa using ih1, ih2⟩
      · rcases sweepRowV2_cases reg2 lat2 now2 r with hstep | hstep
        · obtain ⟨ih1, ih2⟩ := ih reg2 lat2 now2 hkey hwin
          simp only [sweepRowsV2, hstep]
          exact ⟨by simpa using ih1, ih2⟩
        · have hkey2 : mapGet (mapSet lat2 (suppressionKey r.client_id) now2)
              (suppressionKey aid) = some now := by
            rw [mapGet_mapSet_ne _ _ _ _ (suppressionKey_beq_false hr)]
            exact hkey
          obtain ⟨ih1, ih2⟩ := ih reg2 _ now2 hkey2 hwin
          simp only [sweepRowsV2, hstep, effectsFor_append]
          refine ⟨?_, ih2⟩
          rw [effectsFor_offline_ne r aid hr]
          simpa using ih1

theorem sweepOfflineRowsV2_suppressed (aid : String) (now : Nat) :
    ∀ (rows : List ConnectionRecord) (reg2 : Registry) (lat2 : AlertTimes)
      (now2 : Nat),
      mapGet lat2 (suppressionKey aid) = some now →
      now2 - now < ALERT_INTERVAL →
      effectsFor (sweepOfflineRowsV2 reg2 lat2 now2 rows).2 aid = []
      ∧ mapGet (sweepOfflineRowsV2 reg2 lat2 now2 rows).1 (suppressionKey aid) =
          some now := by
  intro rows
  induction rows with
  | nil => intro reg2 lat2 now2 hkey hwin; exact ⟨rfl, hkey⟩
  | cons r rs ih =>
      intro reg2 lat2 now2 hkey hwin
      by_cases hstale : now2 - r.last_seen > OFFLINE_THRESHOLD
      · by_cases hr : r.client_id = aid
        · have hstep : handleClientOffline reg2 lat2 now2 r = (lat2, []) := by
            refine handleClientOffline_suppressed reg2 lat2 now2 r now ?_ hwin
            rw [hr]
            exact hkey
          obtain ⟨ih1, ih2⟩ := ih reg2 lat2 now2 hkey hwin
          simp only [sweepOfflineRowsV2, hstale, if_true, hstep]
          exact ⟨by simpa using ih1, ih2⟩
        · rcases handleClientOffline_cases reg2 lat2 now2 r with hstep | hstep
          · obtain ⟨ih1, ih2⟩ := ih reg2 lat2 now2 hkey hwin
            simp only [sweepOfflineRowsV2, hstale, if_true, hstep]
            exact ⟨by simpa using ih1, ih2⟩
          · have hkey2 : mapGet (mapSet lat2 (suppressionKey r.client_id) now2)
                (suppressionKey aid) = some now := by
              rw [mapGet_mapSet_ne _ _ _ _ (suppressionKey_beq_false hr)]
              exact hkey
            obtain ⟨ih1, ih2⟩ := ih reg2 _ now2 hkey2 hwin
            simp only [sweepOfflineRowsV2, hstale, if_true, hstep, effectsFor_append]
            refine ⟨?_, ih2⟩
            rw [effectsFor_offline_ne r aid hr]
            simpa using ih1
      · obtain ⟨ih1, ih2⟩ := ih reg2 lat2 now2 hkey hwin
        simp only [sweepOfflineRowsV2, hstale, if_false]
        exact ⟨by simpa using ih1, ih2⟩

theorem sweepCycleV2_suppressed (aid : String) (now : Nat) (reg2 : Registry)
    (lat2 : AlertTimes) (now2 : Nat)
    (rows2 offlineRows2 : List ConnectionRecord)
    (hkey : mapGet lat2 (suppressionKey aid) = some now)
    (hwin : now2 - now < ALERT_INTERVAL) :
    effectsFor (sweepCycleV2 reg2 lat2 now2 rows2 offlineRows2).2 aid = []
    ∧ mapGet (sweepCycleV2 reg2 lat2 now2 rows2 offlineRows2).1
        (suppressionKey aid) = some now := by
  obtain ⟨h1, hkey1⟩ := sweepRowsV2_suppressed aid now rows2 reg2 lat2 now2 hkey hwin
  obtain ⟨h2, hkey2⟩ :=
    sweepOfflineRowsV2_suppressed aid now offlineRows2 reg2 _ now2 hkey1 hwin
  constructor
  · simp only [sweepCycleV2, effectsFor_append, h1, h2, effectsFor_fleet]
    rfl
  · exact hkey2

/-- Claim C7: for every agent and every inbound heartbeat or metrics
message (a touch), processing the message leaves every registry entry's
`status` field unchanged — a touch never transitions `status`. -/
theorem touch_preserves_status (reg : Registry) (connected : Bool)
    (cid aid : String) (now : Nat) (md : Option StatusMeta)
    (metrics : SystemMetrics) :
    (mapGet (onHeartbeat reg cid now md) aid).map ConnectedClient.status
      = (mapGet reg aid).map ConnectedClient.status
    ∧ (mapGet (onMetrics reg connected cid now metrics md).1 aid).map
        ConnectedClient.status
      = (mapGet reg aid).map ConnectedClient.status := by
  constructor
  · cases hc : mapGet reg cid with
    | none => simp [onHeartbeat, hc]
    | some c =>
        by_cases h : (cid == aid) = true
        · have he : cid = aid := by simpa using h
          subst he
          simp [onHeartbeat, hc, mapGet_mapSet_self]
        · simp only [Bool.not_eq_true] at h
          simp [onHeartbeat, hc, mapGet_mapSet_ne reg cid aid _ h]
  · cases hc : mapGet reg cid with
    | none => simp [onMetrics, hc]
    | some c =>
        by_cases h : (cid == aid) = true
        · have he : cid = aid := by simpa using h
          subst he
          simp [onMetrics, hc, mapGet_mapSet_self]
        · simp only [Bool.not_eq_true] at h
          simp [onMetrics, hc, mapGet_mapSet_ne reg cid aid _ h]

/-- Registry state before re-registration: agent a1 online, with a stored
metrics snapshot. -/
def c4Before : Registry :=
  [("a1", { id := none, lastHeartbeat := 100, lastReport := none,
            status := .online, metadata := none,
            metrics := some sampleMetrics })]

/-- Claim C4 counterexample: re-registering an already-known agent ERASES
the previously stored metrics snapshot (`registerClient` stores a fresh
record that carries no `metrics` member), contradicting the claim that
metrics are left intact. -/
theorem register_erases_metrics_counterexample :
    (mapGet c4Before "a1").map ConnectedClient.metrics = some (some sampleMetrics)
    ∧ (mapGet (registerClient c4Before true "a1" 200 (some sampleStatusMeta)).1
        "a1").map ConnectedClient.metrics = some none := ⟨rfl, rfl⟩

/-- Claim C4 (amended): `register` is idempotent in the sense that calling
it again for a known agent replaces the entry with a fresh record — new
metadata, `lastHeartbeat` reset to the current time, `status` online — but
the previously stored metrics snapshot is erased (reset to absent), and
every other key of the registry is untouched. -/
theorem registerClient_overwrites (reg : Registry) (connected : Bool)
    (cid aid : String) (now : Nat) (md : Option StatusMeta) :
    mapGet (registerClient reg connected cid now md).1 aid =
      (if (cid == aid) = true
       then some { id := none, lastHeartbeat := now, lastReport := none,
                   status := .online, metadata := md, metrics := none }
       else mapGet reg aid) := by
  by_cases h : (cid == aid) = true
  · have he : cid = aid := by simpa using h
    subst he
    simp [registerClient, mapGet_mapSet_self]
  · simp only [Bool.not_eq_true] at h
    simp [registerClient, h, mapGet_mapSet_ne reg cid aid _ h]

/-- Claim C9: a StatusEvent with a non-online status stores a registry
entry under the event's clientId with `status = offline` and
`lastHeartbeat` equal to the event's timestamp; when the agent was unknown
the spread of the absent record produces a fresh entry, so relayed offline
events for unknown agents grow the registry. -/
theorem offline_event_creates_entry (reg : Registry) (now : Nat)
    (st : ConnectionStatus) (h : st.status ≠ .online) :
    mapGet (handleConnectionStatus reg now st).1 st.clientId =
      some { (mapGet reg st.clientId).getD emptyClient with
             lastHeartbeat := st.timestamp, status := .offline } := by
  simp [handleConnectionStatus, h, mapGet_mapSet_self]

/-- Witness for C9 at a concrete input: an `offline` event for an agent
the process has never registered (empty registry) creates the entry. -/
theorem offline_event_creates_entry_witness :
    (⟨"ghost", .offline, 777, none⟩ : ConnectionStatus).status ≠ .online
    ∧ mapGet (handleConnectionStatus [] 900 ⟨"ghost", .offline, 777, none⟩).1
        "ghost" =
      some { (mapGet ([] : Registry) "ghost").getD emptyClient with
             lastHeartbeat := 777, status := .offline } :=
  ⟨by decide, offline_event_creates_entry [] 900 ⟨"ghost", .offline, 777, none⟩
    (by decide)⟩

/-- Claim C3 counterexample: `publishSystemMetrics` of the slim service
revision (publisher.services.ts lines 46-59) has no connected guard — with
the transport reporting disconnected the call does not fail with
NotConnected, and it still attempts the publish. -/
theorem slim_metrics_ignore_connected_counterexample :
    publishSystemMetricsSlim false sampleMetrics ≠
      Except.error PublishError.notConnected
    ∧ publishEffects (publishSystemMetricsSlim false sampleMetrics) =
        [.publish CHANNELS_SYSTEM_METRICS (encodeMetrics sampleMetrics)] := by
  constructor
  · simp [publishSystemMetricsSlim]
  · rfl

/-- Claim C3 (amended): in publisher.service.ts all three publish
operations fail with the NotConnected error — before producing any side
effect — whenever the transport reports disconnected, and the slim
revision's `publishConnectionStatus` does too; but the slim revision's
`publishSystemMetrics` and `publishAlert` attempt the publish regardless
of the connected flag.  Every publish operation performs at most one
publish attempt per call (no retry). -/
theorem publish_requires_connected_amended :
    (∀ st, publishConnectionStatus false st = .error .notConnected)
    ∧ (∀ m, publishSystemMetrics false m = .error .notConnected)
    ∧ (∀ now a, publishAlert false now a = .error .notConnected)
    ∧ (∀ st, publishConnectionStatusSlim false st = .error .notConnected)
    ∧ (∀ c st, publishCount (publishConnectionStatus c st) ≤ 1)
    ∧ (∀ c m, publishCount (publishSystemMetrics c m) ≤ 1)
    ∧ (∀ c now a, publishCount (publishAlert c now a) ≤ 1)
    ∧ (∀ c m, publishCount (publishSystemMetricsSlim c m) ≤ 1)
    ∧ (∀ c now ty msg sev, publishCount (publishAlertSlim c now ty msg sev) ≤ 1) := by
  refine ⟨fun st => rfl, fun m => rfl, fun now a => rfl, fun st => rfl,
    ?_, ?_, ?_, ?_, ?_⟩
  · intro c st
    cases c <;>
      simp [publishCount, publishEffects, publishConnectionStatus, Eff.isPublish]
  · intro c m
    cases c <;>
      simp [publishCount, publishEffects, publishSystemMetrics, Eff.isPublish]
  · intro c now a
    cases c <;>
      simp [publishCount, publishEffects, publishAlert, Eff.isPublish]
  · intro c m
    cases c <;>
      simp [publishCount, publishEffects, publishSystemMetricsSlim, Eff.isPublish]
  · intro c now ty msg sev
    cases c <;>
      simp [publishCount, publishEffects, publishAlertSlim, Eff.isPublish]

/-- Claim C8 counterexample: an Alert published with an absent timestamp
arrives on the subscriber side with the publish-time timestamp filled in —
`publishAlert` replaces `alert.timestamp || Date.now()` before
serializing, so the absent optional field is NOT preserved as absent. -/
theorem alert_timestamp_not_preserved_counterexample :
    sampleAlert.timestamp = none
    ∧ decodeAlert (encodeAlert (publishAlertPayload 1000 sampleAlert)) =
        some { sampleAlert with timestamp := some 1000 }
    ∧ decodeAlert (encodeAlert (publishAlertPayload 1000 sampleAlert)) ≠
        some sampleAlert := by
  refine ⟨rfl, decodeAlert_encode (publishAlertPayload 1000 sampleAlert), ?_⟩
  intro h
  rw [decodeAlert_encode (publishAlertPayload 1000 sampleAlert)] at h
  have h2 : (publishAlertPayload 1000 sampleAlert).timestamp =
      sampleAlert.timestamp := congrArg Alert.timestamp (Option.some.inj h)
  simp [publishAlertPayload, sampleAlert] at h2

/-- Claim C8 (amended): serializing and deserializing a StatusEvent or an
Alert through a relay channel preserves every field, absent optional
fields staying absent — except that `publishAlert` substitutes the current
time for an absent (or zero) Alert timestamp before serializing; an Alert
that already carries a non-zero timestamp round-trips unchanged through
the publish path, and StatusEvents are published unmodified. -/
theorem relay_roundtrip_amended :
    (∀ s : ConnectionStatus, decodeStatus (encodeStatus s) = some s)
    ∧ (∀ a : Alert, decodeAlert (encodeAlert a) = some a)
    ∧ (∀ (now : Nat) (a : Alert) (t : Nat), a.timestamp = some t → t ≠ 0 →
        decodeAlert (encodeAlert (publishAlertPayload now a)) = some a) := by
  refine ⟨decodeStatus_encode, decodeAlert_encode, ?_⟩
  intro now a t ht ht0
  have hp : publishAlertPayload now a = a := by
    obtain ⟨ty, msg, sev, ts, md⟩ := a
    simp only at ht
    subst ht
    simp [publishAlertPayload, ht0]
  rw [hp]
  exact decodeAlert_encode a

/-- Witness for the amended C8 at a concrete input: an alert carrying
timestamp 5 round-trips unchanged through the publish path. -/
theorem relay_roundtrip_amended_witness :
    ({ sampleAlert with timestamp := some 5 } : Alert).timestamp = some 5
    ∧ (5 : Nat) ≠ 0
    ∧ decodeAlert (encodeAlert (publishAlertPayload 1000
        { sampleAlert with timestamp := some 5 })) =
      some { sampleAlert with timestamp := some 5 } :=
  ⟨rfl, by decide,
   relay_roundtrip_amended.2.2 1000 { sampleAlert with timestamp := some 5 } 5
     rfl (by decide)⟩

/-- Claim C5: the backoff delay function yields exactly
[5000, 10000, 20000, 30000, 30000] at attempts 0..4, and a scheduled
reconnect attempt waits exactly `getReconnectDelay` evaluated at the
attempt counter current at scheduling time (the counter is incremented
before the delay is computed). -/
theorem backoff_delay_schedule :
    ([0, 1, 2, 3, 4].map getReconnectDelay = [5000, 10000, 20000, 30000, 30000])
    ∧ (∀ s : SocketClientState, s.isReconnecting = false →
        s.reconnectAttempts < MAX_RECONNECT_ATTEMPTS →
        (handleReconnection s).reconnectTimer =
          some (getReconnectDelay (handleReconnection s).reconnectAttempts)) := by
  constructor
  · rfl
  · intro s h1 h2
    simp [handleReconnection, h1, Nat.not_le.mpr h2]

/-- Witness for C5 at a concrete state: two prior failures, not currently
reconnecting. -/
theorem backoff_delay_schedule_witness :
    (⟨true, false, 2, false, none⟩ : SocketClientState).isReconnecting = false
    ∧ 2 < MAX_RECONNECT_ATTEMPTS
    ∧ (handleReconnection ⟨true, false, 2, false, none⟩).reconnectTimer =
        some (getReconnectDelay
          (handleReconnection ⟨true, false, 2, false, none⟩).reconnectAttempts) :=
  ⟨rfl, by decide, backoff_delay_schedule.2 ⟨true, false, 2, false, none⟩ rfl
    (by decide)⟩

/-- Claim C6 counterexample: after 5 failures a manual `connect()` call
does NOT reset the attempt counter — it stays 5 (the reset happens only in
the connect-success listener). -/
theorem connect_keeps_counter_counterexample :
    (SocketClient.connect ⟨true, false, 5, false, none⟩).reconnectAttempts = 5
    ∧ ¬(SocketClient.connect ⟨true, false, 5, false, none⟩).reconnectAttempts = 0 := by
  decide

/-- Claim C6 (amended): once the attempt counter has reached
MAX_RECONNECT_ATTEMPTS, `handleReconnection` is an early-returning no-op —
no further reconnect attempt is ever scheduled; a subsequent manual
`connect()` call leaves the counter unchanged (it only creates a new
socket), and the counter resets to 0 only in the `'connect'` success
listener. -/
theorem gaveup_terminal_connect_no_reset :
    (∀ s : SocketClientState, s.reconnectAttempts ≥ MAX_RECONNECT_ATTEMPTS →
        handleReconnection s = s)
    ∧ (∀ s : SocketClientState, s.socketConnected = false →
        s.isReconnecting = false →
        (SocketClient.connect s).reconnectAttempts = s.reconnectAttempts)
    ∧ (∀ s : SocketClientState, (onConnectSuccess s).reconnectAttempts = 0) := by
  refine ⟨?_, ?_, fun s => rfl⟩
  · intro s h
    simp [handleReconnection, h]
  · intro s h1 h2
    simp [SocketClient.connect, h1, h2]

/-- Witness for the amended C6 at concrete states. -/
theorem gaveup_terminal_connect_no_reset_witness :
    (⟨true, false, 5, true, none⟩ : SocketClientState).reconnectAttempts ≥
      MAX_RECONNECT_ATTEMPTS
    ∧ handleReconnection ⟨true, false, 5, true, none⟩ = ⟨true, false, 5, true, none⟩
    ∧ (SocketClient.connect ⟨true, false, 5, false, none⟩).reconnectAttempts = 5
    ∧ (onConnectSuccess ⟨true, false, 5, false, none⟩).reconnectAttempts = 0 :=
  ⟨by decide, gaveup_terminal_connect_no_reset.1 _ (by decide),
   (gaveup_terminal_connect_no_reset.2.1 ⟨true, false, 5, false, none⟩ rfl rfl).trans
     rfl,
   gaveup_terminal_connect_no_reset.2.2 _⟩

/-- Claim C10: `sendAlert` while the socket is not connected returns
normally with no emission and no error signalled to the caller; in
particular the RECONNECTING and RECONNECTION_FAILED reconnection alerts
raised during a disconnection are silently discarded. -/
theorem sendAlert_disconnected_silent (s : SocketClientState) (now : Nat)
    (a : Alert) (meta : AlertMetadata) (h : s.socketConnected = false) :
    SocketClient.sendAlert s now a = .ok []
    ∧ sendReconnectionAlert s now meta "RECONNECTING" .warning = .ok []
    ∧ sendReconnectionAlert s now meta "RECONNECTION_FAILED" .error = .ok [] := by
  refine ⟨?_, ?_, ?_⟩ <;> simp [SocketClient.sendAlert, sendReconnectionAlert, h]

/-- Witness for C10 at a concrete disconnected state. -/
theorem sendAlert_disconnected_silent_witness :
    (⟨true, false, 1, true, none⟩ : SocketClientState).socketConnected = false
    ∧ SocketClient.sendAlert ⟨true, false, 1, true, none⟩ 99 sampleAlert = .ok []
    ∧ sendReconnectionAlert ⟨true, false, 1, true, none⟩ 99 sampleMeta
        "RECONNECTING" .warning = .ok []
    ∧ sendReconnectionAlert ⟨true, false, 1, true, none⟩ 99 sampleMeta
        "RECONNECTION_FAILED" .error = .ok [] :=
  ⟨rfl,
   (sendAlert_disconnected_silent ⟨true, false, 1, true, none⟩ 99 sampleAlert
     sampleMeta rfl).1,
   (sendAlert_disconnected_silent ⟨true, false, 1, true, none⟩ 99 sampleAlert
     sampleMeta rfl).2.1,
   (sendAlert_disconnected_silent ⟨true, false, 1, true, none⟩ 99 sampleAlert
     sampleMeta rfl).2.2⟩

/-- Registry produced by registering agent a1 at time 0 and then processing
its heartbeats at 15000, 30000, ..., 300000 — an agent heartbeating
strictly every H = 15000 ms (H below the 300000 ms offline threshold).
The durable row keeps `last_seen = 0` because heartbeats never write to
the durable store. -/
def c1Reg : Registry :=
  ((List.range 20).map (fun k => (k + 1) * 15000)).foldl
    (fun r t => onHeartbeat r "a1" t (some sampleStatusMeta))
    (registerClient [] true "a1" 0 (some sampleStatusMeta)).1

/-- The durable-store row the sweep reads for agent a1: written at
registration time 0 and never refreshed by heartbeats. -/
def c1Row : ConnectionRecord :=
  { client_id := "a1", project_name := "P", location := "L", last_seen := 0 }

/-- Claim C1 counterexample: the publisher.service.ts sweep alerts an agent
that is heartbeating every 15 s.  At time 310000 the registry shows a1
online with a heartbeat 10 s old (10000 < OFFLINE_THRESHOLD), yet the
sweep — whose in-memory connectedness test reads the nonexistent
`client.clientId` property and is therefore always false, and which never
consults the registry's `lastHeartbeat` — sees the stale durable
`last_seen = 0` and fires the full connection_lost record and alerts. -/
theorem sweep_alerts_heartbeating_agent_counterexample :
    (mapGet c1Reg "a1").map ConnectedClient.status = some .online
    ∧ (mapGet c1Reg "a1").map ConnectedClient.lastHeartbeat = some 300000
    ∧ 310000 - 300000 < OFFLINE_THRESHOLD
    ∧ sweepCycleV1 c1Reg 310000 [c1Row] = offlineAlertEffects c1Row := by
  refine ⟨rfl, rfl, by decide, rfl⟩

/-- Claim C1 (amended): under the publisher.ts sweep — the revision whose
per-row check confirms against the registry entry — an agent whose
registry entry is online with a heartbeat inside the offline threshold is
never alerted and never recorded offline by any sweep cycle, whatever the
durable rows say; this sweep also never writes to the registry at all.
The publisher.service.ts sweep revision lacks the registry confirmation
and violates the original claim (see the counterexample). -/
theorem fresh_agent_never_swept (reg : Registry) (lat : AlertTimes)
    (now : Nat) (rows offlineRows : List ConnectionRecord) (aid : String)
    (c : ConnectedClient) (hc : mapGet reg aid = some c)
    (honline : c.status = .online)
    (hfresh : now - c.lastHeartbeat < OFFLINE_THRESHOLD) :
    effectsFor (sweepCycleV2 reg lat now rows offlineRows).2 aid = [] := by
  simp only [sweepCycleV2, effectsFor_append,
    sweepRowsV2_fresh reg now aid c hc honline hfresh rows lat,
    sweepOfflineRowsV2_fresh reg now aid c hc honline hfresh offlineRows _,
    effectsFor_fleet]
  rfl

/-- The registry entry of the heartbeating agent at sweep time. -/
def c1Entry : ConnectedClient :=
  { id := none, lastHeartbeat := 300000, lastReport := none,
    status := .online, metadata := some sampleStatusMeta, metrics := none }

/-- Witness for the amended C1: the same heartbeating agent and stale
durable row that trip the publisher.service.ts sweep produce no effect at
all for a1 under the publisher.ts sweep. -/
theorem fresh_agent_never_swept_witness :
    mapGet c1Reg "a1" = some c1Entry
    ∧ c1Entry.status = .online
    ∧ 310000 - c1Entry.lastHeartbeat < OFFLINE_THRESHOLD
    ∧ effectsFor (sweepCycleV2 c1Reg [] 310000 [c1Row] []).2 "a1" = [] :=
  ⟨rfl, rfl, by decide,
   fresh_agent_never_swept c1Reg [] 310000 [c1Row] [] "a1" c1Entry rfl rfl
     (by decide)⟩

/-- Registry holding one silent agent: a1 is still marked online but its
last heartbeat was at time 0. -/
def c2Reg : Registry :=
  [("a1", { id := none, lastHeartbeat := 0, lastReport := none,
            status := .online, metadata := none, metrics := none })]

/-- Durable row for the silent agent, last seen at time 0. -/
def c2Row : ConnectionRecord :=
  { client_id := "a1", project_name := "P", location := "L", last_seen := 0 }

/-- Claim C2 counterexample: the publisher.service.ts sweep revision has no
suppression map — two sweep cycles 60 s apart (well inside the 5-minute
suppression window) both fire the full connection_lost record and alerts
for the same silent agent, instead of the second being a silent no-op. -/
theorem sweep_realerts_within_window_counterexample :
    sweepCycleV1 c2Reg 310000 [c2Row] = offlineAlertEffects c2Row
    ∧ sweepCycleV1 c2Reg 370000 [c2Row] = offlineAlertEffects c2Row
    ∧ 370000 - 310000 < ALERT_INTERVAL := by
  refine ⟨rfl, rfl, by decide⟩

/-- Claim C2 (amended, publisher.ts revision): a sweep row for an agent
silent beyond the offline threshold fires exactly the offline record,
Telegram warning and Khmer alert, and stamps the suppression entry; any
further sweep cycle within the suppression window — over any registry and
any row sets — produces zero additional effects for that agent, performs
no sink call and no durable write for it, and leaves its suppression
timestamp unchanged.  The publisher.service.ts revision has no suppression
and violates the original claim (see the counterexample). -/
theorem offline_alert_fired_then_suppressed (reg : Registry)
    (lat : AlertTimes) (now : Nat) (aid : String) (c : ConnectedClient)
    (rec : ConnectionRecord)
    (hc : mapGet reg aid = some c)
    (hsilent : now - c.lastHeartbeat > OFFLINE_THRESHOLD)
    (hid : ∀ p ∈ reg, (Prod.snd p).id = none)
    (hrec : rec.client_id = aid)
    (hseen : now - rec.last_seen > OFFLINE_THRESHOLD)
    (hlat : mapGet lat (suppressionKey aid) = none) :
    sweepRowV2 reg lat now rec =
      (mapSet lat (suppressionKey aid) now, offlineAlertEffects rec)
    ∧ (∀ (reg2 : Registry) (now2 : Nat)
        (rows2 offlineRows2 : List ConnectionRecord),
        now2 - now < ALERT_INTERVAL →
        effectsFor (sweepCycleV2 reg2 (mapSet lat (suppressionKey aid) now)
          now2 rows2 offlineRows2).2 aid = []
        ∧ mapGet (sweepCycleV2 reg2 (mapSet lat (suppressionKey aid) now)
            now2 rows2 offlineRows2).1 (suppressionKey aid) = some now) := by
  subst hrec
  constructor
  · have hconn : ((activeClients reg).any fun x => x.id == some rec.client_id)
        = false := by
      rw [List.any_eq_false]
      intro x hx
      have hmem : x ∈ reg.map Prod.snd := (List.mem_filter.mp hx).1
      obtain ⟨p, hp, hpx⟩ := List.mem_map.mp hmem
      have hxid : x.id = none := by rw [← hpx]; exact hid p hp
      simp [hxid]
    have hnotfresh : ¬(now - c.lastHeartbeat < OFFLINE_THRESHOLD) :=
      Nat.lt_asymm hsilent
    simp [sweepRowV2, hconn, hseen, hc, hsilent, handleClientOffline,
      hnotfresh, fireOfflineAlert, hlat]
  · intro reg2 now2 rows2 offlineRows2 hwin
    exact sweepCycleV2_suppressed rec.client_id now reg2 _ now2 rows2
      offlineRows2 (mapGet_mapSet_self lat _ now) hwin

/-- The registry entry of the silent agent. -/
def c2Entry : ConnectedClient :=
  { id := none, lastHeartbeat := 0, lastReport := none, status := .online,
    metadata := none, metrics := none }

/-- Witness for the amended C2: the silent agent a1 is alerted by the sweep
at 310000, and a whole second sweep cycle at 370000 (60 s later) is a
silent no-op for it with the suppression timestamp unchanged. -/
theorem offline_alert_fired_then_suppressed_witness :
    mapGet c2Reg "a1" = some c2Entry
    ∧ 310000 - c2Entry.lastHeartbeat > OFFLINE_THRESHOLD
    ∧ sweepRowV2 c2Reg [] 310000 c2Row =
        (mapSet [] (suppressionKey "a1") 310000, offlineAlertEffects c2Row)
    ∧ effectsFor (sweepCycleV2 c2Reg (mapSet [] (suppressionKey "a1") 310000)
        370000 [c2Row] [c2Row]).2 "a1" = []
    ∧ mapGet (sweepCycleV2 c2Reg (mapSet [] (suppressionKey "a1") 310000)
        370000 [c2Row] [c2Row]).1 (suppressionKey "a1") = some 310000 := by
  have h := offline_alert_fired_then_suppressed c2Reg [] 310000 "a1" c2Entry
    c2Row rfl (by decide) (by decide) rfl (by decide) rfl
  exact ⟨rfl, by decide, h.1, (h.2 c2Reg 370000 [c2Row] [c2Row] (by decide)).1,
    (h.2 c2Reg 370000 [c2Row] [c2Row] (by decide)).2⟩

end ConnMonitor
